import Mathlib

/-!
Shallow embedding of the MemeWaveAI plugin collection:
the Birdeye cached provider (two-tier cache, retry loop, provider entry
point), the GOAT plugin settings validation, the Avalanche SWAP_TOKEN
handler, and the XMTP bootstrap message handler.

JavaScript values relevant to the cache and handlers are modelled by
`JsVal`; JS truthiness by `truthy`.  Stateful code is modelled by explicit
state passing (`CacheState`) and effect traces (`Effect`, `SwapStep`,
`XmtpEffect`).  Asynchronous HTTP calls are modelled by an oracle
`net : Nat → Except String JsVal` giving the outcome of the i-th attempt.
-/

/-- A JavaScript value: null, a number, a string, or some object. -/
inductive JsVal : Type
  | vnull : JsVal
  | vnum : Int → JsVal
  | vstr : String → JsVal
  | vobj : Nat → JsVal
  deriving DecidableEq

/-- JS truthiness: null, 0 and the empty string are falsy. -/
def truthy : JsVal → Bool
  | JsVal.vnull => false
  | JsVal.vnum n => n != 0
  | JsVal.vstr s => s != ""
  | JsVal.vobj _ => true

/-- JS template-literal stringification of a value. -/
def jsToString : JsVal → String
  | JsVal.vnull => "null"
  | JsVal.vnum n => toString n
  | JsVal.vstr s => s
  | JsVal.vobj _ => "[object Object]"

/-- Stringification of an optional value; `undefined` prints as such. -/
def jsToStringOpt : Option JsVal → String
  | some v => jsToString v
  | none => "undefined"

/-- Truthiness of a lookup result: `undefined` (miss) is falsy. -/
def jsTruthyOpt : Option JsVal → Bool
  | some v => truthy v
  | none => false

/-- Falsiness of an optional string setting: `undefined` or `""`. -/
def jsFalsyStrOpt : Option String → Bool
  | none => true
  | some s => s = ""

/-- `x || d` for an optional numeric parameter (0 is falsy in JS). -/
def jsOrDefaultNat (x : Option Nat) (d : Nat) : Nat :=
  match x with
  | none => d
  | some n => if n = 0 then d else n

/-- Association-list lookup keyed by strings (models a key/value store). -/
def assocGet {α : Type} : List (String × α) → String → Option α
  | [], _ => none
  | (k2, v) :: rest, k => if k2 = k then some v else assocGet rest k

/-- Association-list update keyed by strings. -/
def assocSet {α : Type} : List (String × α) → String → α → List (String × α)
  | [], k, v => [(k, v)]
  | (k2, v2) :: rest, k, v =>
    if k2 = k then (k, v) :: rest else (k2, v2) :: assocSet rest k v

/-- `path.join(a, b)` for a plain relative segment `b` (no `.`/`..`
normalisation: the model assumes keys are plain segments). -/
def pathJoin (a b : String) : String := a ++ "/" ++ b

/-- An entry of the in-memory NodeCache: the value together with the TTL
(seconds) recorded when it was set (`stdTTL` of the cache). -/
structure MemEntry : Type where
  val : JsVal
  ttl : Nat
  deriving DecidableEq

/-- An entry of the file-backed cache: the data and its expiry timestamp. -/
structure FsEntry : Type where
  data : JsVal
  expires : Nat
  deriving DecidableEq

/-- The two cache tiers: the in-memory NodeCache and the file-backed
cache manager store (keyed by full joined path). -/
structure CacheState : Type where
  mem : List (String × MemEntry)
  fs : List (String × FsEntry)
  deriving DecidableEq

/-- `BaseCachedProvider`: the per-provider namespace `cacheKey` and the
in-memory TTL `stdTTL` fixed at construction. -/
structure BaseCachedProvider : Type where
  cacheKey : String
  stdTTL : Nat

/-- The `BaseCachedProvider` constructor: `new NodeCache({ stdTTL: ttl || 300 })`. -/
def mkBaseCachedProvider (cacheKey : String) (ttl : Option Nat) : BaseCachedProvider :=
  { cacheKey := cacheKey, stdTTL := jsOrDefaultNat ttl 300 }

/-- `readFsCache`: `this.cacheManager.get(path.join(this.cacheKey, key))`. -/
def readFsCache (p : BaseCachedProvider) (st : CacheState) (key : String) :
    Option JsVal :=
  (assocGet st.fs (pathJoin p.cacheKey key)).map FsEntry.data

/-- `writeFsCache`: `cacheManager.set(path.join(cacheKey, key), data,
{ expires: Date.now() + 5 * 60 * 1000 })`. -/
def writeFsCache (p : BaseCachedProvider) (st : CacheState) (key : String)
    (data : JsVal) (now : Nat) : CacheState :=
  { st with
    fs := assocSet st.fs (pathJoin p.cacheKey key)
      { data := data, expires := now + 5 * 60 * 1000 } }

/-- `readFromCache`: memory tier first (`if (val) return val`), then the
file tier; a truthy file hit repopulates the memory tier; the file value
(or null) is returned. -/
def readFromCache (p : BaseCachedProvider) (st : CacheState) (key : String) :
    Option JsVal × CacheState :=
  if jsTruthyOpt ((assocGet st.mem key).map MemEntry.val) then
    ((assocGet st.mem key).map MemEntry.val, st)
  else
    match readFsCache p st key with
    | some fv =>
      (some fv,
        if truthy fv then
          { st with mem := assocSet st.mem key { val := fv, ttl := p.stdTTL } }
        else st)
    | none => (none, st)

/-- `writeToCache`: set the in-memory entry, then write the file entry. -/
def writeToCache (p : BaseCachedProvider) (st : CacheState) (key : String)
    (val : JsVal) (now : Nat) : CacheState :=
  writeFsCache p { st with mem := assocSet st.mem key { val := val, ttl := p.stdTTL } }
    key val now

/-- `const DEFAULT_MAX_RETRIES = 3`. -/
def DEFAULT_MAX_RETRIES : Nat := 3

/-- `const RETRY_DELAY_MS = 2_000`. -/
def RETRY_DELAY_MS : Nat := 2000

/-- `const API_BASE_URL = "https://public-api.birdeye.so"`. -/
def API_BASE_URL : String := "https://public-api.birdeye.so"

/-- `ENDPOINT_MAP`. -/
def ENDPOINT_MAP : List (String × String) :=
  [("price", "/defi/price?address="),
   ("security", "/defi/token_security?address="),
   ("volume", "/defi/v3/token/trade-data/single?address="),
   ("portfolio", "/v1/wallet/token_list?wallet=")]

/-- `BirdeyeProvider`: the base provider plus `maxRetries`. -/
structure BirdeyeProvider : Type where
  base : BaseCachedProvider
  maxRetries : Nat

/-- The `BirdeyeProvider` constructor: `super(cacheManager, "birdeye/data")`
and `this.maxRetries = maxRetries || DEFAULT_MAX_RETRIES`. -/
def mkBirdeyeProvider (maxRetries : Option Nat) : BirdeyeProvider :=
  { base := mkBaseCachedProvider "birdeye/data" none,
    maxRetries := jsOrDefaultNat maxRetries DEFAULT_MAX_RETRIES }

/-- `getUrlByType`: endpoint lookup; unknown types throw. -/
def getUrlByType (ty : String) (address : String) : Except String String :=
  match assocGet ENDPOINT_MAP ty with
  | some p => Except.ok (API_BASE_URL ++ p ++ address)
  | none => Except.error ("Unsupported symbol " ++ ty ++ " in Birdeye provider")

/-- Observable effects of the Birdeye network layer. -/
inductive Effect : Type
  | httpGet : String → Effect
  | wait : Nat → Effect
  deriving DecidableEq

/-- The loop body of `fetchWithRetry`, by recursion on the remaining
attempts (`remaining = maxRetries - attempts`).  The oracle `net i` gives
the outcome of the i-th fetch of the url.  Falling out of the loop
(maxRetries exhausted from the start) returns `undefined` (`ok none`). -/
def fetchWithRetryGo (net : Nat → Except String JsVal) (url : String) :
    Nat → Nat → Except String (Option JsVal) × List Effect
  | _, 0 => (Except.ok none, [])
  | attempts, remaining + 1 =>
    match net (attempts + 1) with
    | Except.ok v => (Except.ok (some v), [Effect.httpGet url])
    | Except.error e =>
      if remaining = 0 then (Except.error e, [Effect.httpGet url])
      else
        ((fetchWithRetryGo net url (attempts + 1) remaining).1,
          Effect.httpGet url :: Effect.wait RETRY_DELAY_MS ::
            (fetchWithRetryGo net url (attempts + 1) remaining).2)

/-- `fetchWithRetry`: run the retry loop starting with `attempts = 0`. -/
def fetchWithRetry (p : BirdeyeProvider) (net : Nat → Except String JsVal)
    (url : String) : Except String (Option JsVal) × List Effect :=
  fetchWithRetryGo net url 0 p.maxRetries

/-- `fetchPriceByAddress`: build the price url and fetch with retry.  The
cache state is carried to record that the method neither reads nor writes
it (the source method is `return this.fetchWithRetry(url)`). -/
def fetchPriceByAddress (p : BirdeyeProvider) (st : CacheState)
    (net : Nat → Except String JsVal) (address : String) :
    Except String (Option JsVal) × CacheState × List Effect :=
  match getUrlByType "price" address with
  | Except.error e => (Except.error e, st, [])
  | Except.ok url =>
    ((fetchWithRetry p net url).1, st, (fetchWithRetry p net url).2)

/-- `fetchTokenSecurityByAddress`. -/
def fetchTokenSecurityByAddress (p : BirdeyeProvider) (st : CacheState)
    (net : Nat → Except String JsVal) (address : String) :
    Except String (Option JsVal) × CacheState × List Effect :=
  match getUrlByType "security" address with
  | Except.error e => (Except.error e, st, [])
  | Except.ok url =>
    ((fetchWithRetry p net url).1, st, (fetchWithRetry p net url).2)

/-- `fetchTokenTradeDataByAddress`. -/
def fetchTokenTradeDataByAddress (p : BirdeyeProvider) (st : CacheState)
    (net : Nat → Except String JsVal) (address : String) :
    Except String (Option JsVal) × CacheState × List Effect :=
  match getUrlByType "volume" address with
  | Except.error e => (Except.error e, st, [])
  | Except.ok url =>
    ((fetchWithRetry p net url).1, st, (fetchWithRetry p net url).2)

/-- `fetchWalletPortfolio`. -/
def fetchWalletPortfolio (p : BirdeyeProvider) (st : CacheState)
    (net : Nat → Except String JsVal) (address : String) :
    Except String (Option JsVal) × CacheState × List Effect :=
  match getUrlByType "portfolio" address with
  | Except.error e => (Except.error e, st, [])
  | Except.ok url =>
    ((fetchWithRetry p net url).1, st, (fetchWithRetry p net url).2)

/-- The empty cache state a freshly constructed provider sees. -/
def emptyCacheState : CacheState := { mem := [], fs := [] }

/-- `birdeyeProvider.get`: falsy wallet setting yields the no-wallet
message; otherwise the portfolio fetch result is formatted, and any
thrown error is caught and replaced by the fixed fallback string. -/
def birdeyeProviderGet (walletAddr : Option String)
    (net : Nat → Except String JsVal) : String :=
  if jsFalsyStrOpt walletAddr then
    "Birdeye provider initiated with no wallet found"
  else
    let addr := walletAddr.getD ""
    match (fetchWalletPortfolio (mkBirdeyeProvider none) emptyCacheState net addr).1 with
    | Except.ok v =>
      "Birdeye wallet addr: " ++ addr ++ ", portfolio: " ++ jsToStringOpt v
    | Except.error _ =>
      "Unable to fetch token information. Please try again later."

/-- `REQUIRED_SETTINGS` of the GOAT plugin: key with description, in
insertion order. -/
def REQUIRED_SETTINGS : List (String × String) :=
  [("WALLET_PUBLIC_KEY", "Solana wallet public key"),
   ("DEXSCREENER_WATCHLIST_ID", "DexScreener watchlist ID"),
   ("COINGECKO_API_KEY", "CoinGecko API key")]

/-- The `missingSettings` accumulation of `createGoatPlugin`: for every
required key whose setting is falsy, push `key (description)`. -/
def missingSettings (getSetting : String → Option String) : List String :=
  (REQUIRED_SETTINGS.filter fun kv => jsFalsyStrOpt (getSetting kv.1)).map
    fun kv => kv.1 ++ " (" ++ kv.2 ++ ")"

/-- `createGoatPlugin`, validation phase.  The parameter `rest` stands for
everything the function does after validation succeeds (Solana wallet
adapter, Twitter notifier, plugin assembly); an `Except.error` result is
produced from the settings alone, before `rest` is touched, exactly as the
source throws before any initialization. -/
def createGoatPlugin {α : Type} (getSetting : String → Option String)
    (rest : α) : Except String α :=
  if (missingSettings getSetting).length > 0 then
    Except.error
      ("Missing required settings: " ++
        String.intercalate ", " (missingSettings getSetting))
  else Except.ok rest

/-- The content object produced by `generateObject` for SWAP_TOKEN. -/
structure SwapContent : Type where
  fromTokenAddress : JsVal
  toTokenAddress : JsVal
  recipient : JsVal
  amount : JsVal
  deriving DecidableEq

/-- `typeof x === "string"`. -/
def isStringVal : JsVal → Bool
  | JsVal.vstr _ => true
  | _ => false

/-- `typeof x === "number"`. -/
def isNumberVal : JsVal → Bool
  | JsVal.vnum _ => true
  | _ => false

/-- `isSwapContent`: type test on the generated content. -/
def isSwapContent (c : SwapContent) : Bool :=
  isStringVal c.fromTokenAddress && isStringVal c.toTokenAddress &&
    (isStringVal c.recipient || !truthy c.recipient) &&
    (isStringVal c.amount || isNumberVal c.amount)

/-- The string carried by a JS string value (`content.x as Address`). -/
def asString : JsVal → String
  | JsVal.vstr s => s
  | _ => ""

/-- Address zero, used for native AVAX. -/
def ZERO_ADDRESS : String := "0x0000000000000000000000000000000000000000"

/-- The hard-coded yak router address of the handler. -/
def YAK_ROUTER : String := "0xC4729E56b831d74bBc18797e0e17A295fA77488c"

/-- Observable calls of the SWAP_TOKEN handler, in execution order. -/
inductive SwapStep : Type
  | generateObjectCall : SwapStep
  | getQuoteCall : String → String → SwapStep
  | approveCall : String → String → SwapStep
  | getTxReceiptCall : String → SwapStep
  | swapCall : SwapStep
  deriving DecidableEq

/-- Outcomes of the external swap functions: `approve` and `swap` resolve
to a transaction hash or a falsy value, `getTxReceipt tx` yields the
receipt status string. -/
structure SwapEnv : Type where
  approveTx : Option String
  receiptStatus : String → String
  swapTx : Option String

/-- The SWAP_TOKEN handler after state composition: `generateObject`
produces `content`; invalid content stops with `false`; otherwise
`getQuote` is called, then the native-address branches fall through to the
final callback, and the ERC-20 path runs approve / receipt / swap /
receipt, each step gated exactly as in the source.  The result is the
handler's return value and the ordered trace of external calls. -/
def swapHandler (content : SwapContent) (env : SwapEnv) :
    Bool × List SwapStep :=
  if !isSwapContent content then (false, [SwapStep.generateObjectCall])
  else
    let fromA := asString content.fromTokenAddress
    let toA := asString content.toTokenAddress
    let steps1 := [SwapStep.generateObjectCall, SwapStep.getQuoteCall fromA toA]
    if fromA = ZERO_ADDRESS then (true, steps1)
    else if toA = ZERO_ADDRESS then (true, steps1)
    else
      let steps2 := steps1 ++ [SwapStep.approveCall fromA YAK_ROUTER]
      match env.approveTx with
      | some tx =>
        let steps3 := steps2 ++ [SwapStep.getTxReceiptCall tx]
        if env.receiptStatus tx = "success" then
          let steps4 := steps3 ++ [SwapStep.swapCall]
          match env.swapTx with
          | some stx => (true, steps4 ++ [SwapStep.getTxReceiptCall stx])
          | none => (true, steps4)
        else (true, steps3)
      | none => (true, steps2)

/-- Index of the first step satisfying `p` (length of the list if none). -/
def firstIdxWhere (p : SwapStep → Bool) : List SwapStep → Nat
  | [] => 0
  | s :: rest => if p s then 0 else firstIdxWhere p rest + 1

/-- Recognise a `getQuote` call. -/
def isQuoteStep : SwapStep → Bool
  | SwapStep.getQuoteCall _ _ => true
  | _ => false

/-- Recognise an `approve` call. -/
def isApproveStep : SwapStep → Bool
  | SwapStep.approveCall _ _ => true
  | _ => false

/-- Observable effects of the XMTP message handler. -/
inductive XmtpEffect : Type
  | log : String → XmtpEffect
  | send : String → XmtpEffect
  deriving DecidableEq

/-- The `onMessage` handler of `startXmtpClient`: log the decoded
message, then send the hard-coded response. -/
def onMessage (message user : String) : List XmtpEffect :=
  [XmtpEffect.log ("Decoded message: " ++ message ++ " by " ++ user),
   XmtpEffect.send "Your AI response here"]

/-- The replies actually sent through the client. -/
def sentReplies (effs : List XmtpEffect) : List String :=
  effs.filterMap fun e =>
    match e with
    | XmtpEffect.send s => some s
    | _ => none

/-- Number of HTTP attempts recorded in a trace. -/
def countHttp : List Effect → Nat
  | [] => 0
  | Effect.httpGet _ :: rest => countHttp rest + 1
  | Effect.wait _ :: rest => countHttp rest

/-- Number of inter-attempt delays recorded in a trace. -/
def countWait : List Effect → Nat
  | [] => 0
  | Effect.wait _ :: rest => countWait rest + 1
  | Effect.httpGet _ :: rest => countWait rest

/-- A network oracle that fails on every attempt. -/
def failNet : Nat → Except String JsVal :=
  fun i => Except.error ("err" ++ toString i)

/-- A cache state that already holds fresh price data in both tiers. -/
def c1St : CacheState :=
  { mem := [("price/0xabc", { val := JsVal.vnum 42, ttl := 300 })],
    fs := [("birdeye/data/price/0xabc",
      { data := JsVal.vnum 42, expires := 999999999999 })] }

/-- Valid non-native swap content, as `generateObject` would produce. -/
def c6Content : SwapContent :=
  { fromTokenAddress := JsVal.vstr "0xFROM",
    toTokenAddress := JsVal.vstr "0xTO",
    recipient := JsVal.vnull,
    amount := JsVal.vnum 5 }

/-- Swap environment where approval and swap both succeed. -/
def c6Env : SwapEnv :=
  { approveTx := some "0xtx1",
    receiptStatus := fun _ => "success",
    swapTx := some "0xtx2" }

/-- Swap environment where the approval receipt reports a failure. -/
def c6EnvFail : SwapEnv :=
  { approveTx := some "0xtx1",
    receiptStatus := fun _ => "reverted",
    swapTx := some "0xtx2" }

/-- A settings source with every setting absent. -/
def goatGetNone : String → Option String := fun _ => none

/-- A settings source with every setting present and non-empty. -/
def goatGetAll : String → Option String := fun _ => some "x"

/-- A provider with an unspecified TTL, as the Birdeye constructor builds. -/
def wProv : BaseCachedProvider := mkBaseCachedProvider "ns" none

/-- A state whose memory tier holds `k`. -/
def wStMem : CacheState :=
  { mem := [("k", { val := JsVal.vnum 1, ttl := 300 })], fs := [] }

/-- A state whose file tier holds `ns/k` and whose memory tier is empty. -/
def wStFs : CacheState :=
  { mem := [], fs := [("ns/k", { data := JsVal.vnum 2, expires := 10 })] }

theorem assocGet_assocSet_self {α : Type} (l : List (String × α)) (k : String)
    (v : α) : assocGet (assocSet l k v) k = some v := by
  induction l with
  | nil => simp [assocGet, assocSet]
  | cons hd tl ih =>
    by_cases h : hd.1 = k
    · simp [assocGet, assocSet, h]
    · simp [assocGet, assocSet, h, ih]

theorem assocGet_assocSet_ne {α : Type} (l : List (String × α)) (k k2 : String)
    (v : α) (h : k2 ≠ k) : assocGet (assocSet l k v) k2 = assocGet l k2 := by
  have h2 : ¬ k = k2 := fun h3 => h h3.symm
  induction l with
  | nil => simp [assocGet, assocSet, h2]
  | cons hd tl ih =>
    by_cases h1 : hd.1 = k
    · have h4 : ¬ hd.1 = k2 := by rw [h1]; exact h2
      simp [assocGet, assocSet, h1, h2, h4]
    · simp only [assocSet, h1, if_false, assocGet]
      by_cases h3 : hd.1 = k2
      · simp [h3]
      · simp [h3, ih]

/-- C2: `readFromCache` checks the in-memory tier first and returns a
memory hit with the state unchanged; on a memory miss it consults the
file tier, and a file hit is returned after repopulating the memory tier;
when both tiers miss it returns null with the state unchanged.  A "hit"
is the code's criterion: a stored truthy value. -/
theorem readFromCache_tiered_lookup (p : BaseCachedProvider) (st : CacheState)
    (key : String) :
    (∀ v, (assocGet st.mem key).map MemEntry.val = some v → truthy v = true →
      readFromCache p st key = (some v, st)) ∧
    (jsTruthyOpt ((assocGet st.mem key).map MemEntry.val) = false →
      ∀ fv, readFsCache p st key = some fv → truthy fv = true →
        readFromCache p st key =
          (some fv,
            { st with
              mem := assocSet st.mem key { val := fv, ttl := p.stdTTL } })) ∧
    (assocGet st.mem key = none → readFsCache p st key = none →
      readFromCache p st key = (none, st)) := by
  refine ⟨?_, ?_, ?_⟩
  · intro v hmem htr
    simp [readFromCache, hmem, jsTruthyOpt, htr]
  · intro hmiss fv hfs htr
    simp [readFromCache, hmiss, hfs, htr]
  · intro hmem hfs
    simp [readFromCache, hmem, hfs, jsTruthyOpt]

/-- Witness for C2: all three tiers of the lookup, at concrete states. -/
theorem readFromCache_tiered_lookup_witness :
    readFromCache wProv wStMem "k" = (some (JsVal.vnum 1), wStMem) ∧
    readFromCache wProv wStFs "k" =
      (some (JsVal.vnum 2),
        { wStFs with
          mem := assocSet wStFs.mem "k" { val := JsVal.vnum 2, ttl := 300 } }) ∧
    readFromCache wProv emptyCacheState "k" = (none, emptyCacheState) :=
  ⟨(readFromCache_tiered_lookup wProv wStMem "k").1 (JsVal.vnum 1)
      (by decide) (by decide),
   (readFromCache_tiered_lookup wProv wStFs "k").2.1 (by decide)
      (JsVal.vnum 2) (by decide) (by decide),
   (readFromCache_tiered_lookup wProv emptyCacheState "k").2.2
      (by decide) (by decide)⟩

/-- C4: `writeToCache` writes through both tiers: the in-memory entry is
set with the constructor's TTL (which defaults to 300 seconds), and the
file entry is written at the namespaced path with the explicit expiry
`now + 5 * 60 * 1000`, which does not depend on the in-memory TTL. -/
theorem writeToCache_write_through (p : BaseCachedProvider) (st : CacheState)
    (key : String) (v : JsVal) (now : Nat) (ck : String) :
    (writeToCache p st key v now).mem =
      assocSet st.mem key { val := v, ttl := p.stdTTL } ∧
    (writeToCache p st key v now).fs =
      assocSet st.fs (pathJoin p.cacheKey key)
        { data := v, expires := now + 5 * 60 * 1000 } ∧
    (mkBaseCachedProvider ck none).stdTTL = 300 ∧
    (∀ t, (writeToCache { cacheKey := p.cacheKey, stdTTL := t } st key v now).fs =
      (writeToCache p st key v now).fs) :=
  ⟨rfl, rfl, rfl, fun _ => rfl⟩

/-- C9: write-then-read round-trip: after `writeToCache key v`,
`readFromCache key` returns `v`, for every value `v`; when `v` is falsy
the returned value is the one the file tier serves (the truthiness check
treats the in-memory hit as a miss) and the post-write state is
unchanged by the read. -/
theorem cache_write_read_roundtrip (p : BaseCachedProvider) (st : CacheState)
    (key : String) (v : JsVal) (now : Nat) :
    (readFromCache p (writeToCache p st key v now) key).1 = some v ∧
    (truthy v = false →
      readFromCache p (writeToCache p st key v now) key =
        (readFsCache p (writeToCache p st key v now) key,
          writeToCache p st key v now)) := by
  have hmem : (assocGet (writeToCache p st key v now).mem key).map MemEntry.val
      = some v := by
    simp [writeToCache, writeFsCache, assocGet_assocSet_self]
  have hfs : readFsCache p (writeToCache p st key v now) key = some v := by
    simp [readFsCache, writeToCache, writeFsCache, assocGet_assocSet_self]
  cases htr : truthy v with
  | true =>
    refine ⟨?_, ?_⟩
    · simp [readFromCache, hmem, jsTruthyOpt, htr]
    · intro hf
      simp [htr] at hf
  | false =>
    refine ⟨?_, ?_⟩
    · simp [readFromCache, hmem, jsTruthyOpt, htr, hfs]
    · intro _
      simp [readFromCache, hmem, jsTruthyOpt, htr, hfs]

/-- Witness for C9: round trip of the falsy value 0 through both tiers. -/
theorem cache_write_read_roundtrip_witness :
    (readFromCache wProv (writeToCache wProv emptyCacheState "k" (JsVal.vnum 0) 7)
        "k").1 = some (JsVal.vnum 0) ∧
    readFromCache wProv (writeToCache wProv emptyCacheState "k" (JsVal.vnum 0) 7)
        "k" =
      (readFsCache wProv
          (writeToCache wProv emptyCacheState "k" (JsVal.vnum 0) 7) "k",
        writeToCache wProv emptyCacheState "k" (JsVal.vnum 0) 7) :=
  ⟨(cache_write_read_roundtrip wProv emptyCacheState "k" (JsVal.vnum 0) 7).1,
   (cache_write_read_roundtrip wProv emptyCacheState "k" (JsVal.vnum 0) 7).2
     (by decide)⟩

/-- C7: file-cache accesses are namespaced: the Birdeye constructor fixes
the namespace `"birdeye/data"`; `readFsCache` reads exactly the entry at
`path.join(cacheKey, key)`, which lies inside the namespace; a write
leaves every other file-cache entry untouched; and a read never modifies
the file tier at all. -/
theorem fsCache_namespace_scoped (p : BaseCachedProvider) (st : CacheState)
    (key : String) :
    (mkBirdeyeProvider none).base.cacheKey = "birdeye/data" ∧
    readFsCache p st key =
      (assocGet st.fs (pathJoin p.cacheKey key)).map FsEntry.data ∧
    (∃ s, pathJoin p.cacheKey key = p.cacheKey ++ "/" ++ s) ∧
    (∀ v now k2, k2 ≠ pathJoin p.cacheKey key →
      assocGet (writeToCache p st key v now).fs k2 = assocGet st.fs k2) ∧
    (readFromCache p st key).2.fs = st.fs := by
  refine ⟨rfl, rfl, ⟨key, rfl⟩, ?_, ?_⟩
  · intro v now k2 hne
    simp only [writeToCache, writeFsCache]
    exact assocGet_assocSet_ne _ _ _ _ hne
  · unfold readFromCache
    split
    · rfl
    · split
      · dsimp only
        split <;> rfl
      · rfl

/-- Witness for C7: a write at key `k` leaves the foreign entry `other`
unchanged. -/
theorem fsCache_namespace_scoped_witness :
    assocGet (writeToCache wProv wStFs "k" (JsVal.vnum 3) 0).fs "other" =
      assocGet wStFs.fs "other" :=
  (fsCache_namespace_scoped wProv wStFs "k").2.2.2.1 (JsVal.vnum 3) 0 "other"
    (by decide)

/-- C8: the XMTP message handler's reply is static: for every incoming
message and sender, the only reply sent through the client is the fixed
string, independent of the message content and the user. -/
theorem xmtp_static_reply (m u m2 u2 : String) :
    sentReplies (onMessage m u) = ["Your AI response here"] ∧
    sentReplies (onMessage m u) = sentReplies (onMessage m2 u2) :=
  ⟨rfl, rfl⟩

theorem countHttp_fetchWithRetryGo_le (net : Nat → Except String JsVal)
    (url : String) :
    ∀ r a, countHttp (fetchWithRetryGo net url a r).2 ≤ r := by
  intro r
  induction r with
  | zero => intro a; simp [fetchWithRetryGo, countHttp]
  | succ s ih =>
    intro a
    simp only [fetchWithRetryGo]
    cases hnet : net (a + 1) with
    | ok v => simp [countHttp]
    | error e =>
      dsimp only
      by_cases hs : s = 0
      · simp [hs, countHttp]
      · rw [if_neg hs]
        have := ih (a + 1)
        simp [countHttp]
        omega

theorem wait_fetchWithRetryGo_eq (net : Nat → Except String JsVal)
    (url : String) :
    ∀ r a ms, Effect.wait ms ∈ (fetchWithRetryGo net url a r).2 →
      ms = RETRY_DELAY_MS := by
  intro r
  induction r with
  | zero => intro a ms h; simp [fetchWithRetryGo] at h
  | succ s ih =>
    intro a ms h
    simp only [fetchWithRetryGo] at h
    cases hnet : net (a + 1) with
    | ok v =>
      rw [hnet] at h
      simp at h
    | error e =>
      rw [hnet] at h
      dsimp only at h
      by_cases hs : s = 0
      · simp [hs] at h
      · rw [if_neg hs] at h
        simp only [List.mem_cons] at h
        rcases h with h | h | h
        · cases h
        · cases h; rfl
        · exact ih (a + 1) ms h

theorem fetchWithRetryGo_all_fail (net : Nat → Except String JsVal)
    (url : String) :
    ∀ r a e, 1 ≤ r →
      (∀ i, a < i → i < a + r → ∃ e2, net i = Except.error e2) →
      net (a + r) = Except.error e →
      (fetchWithRetryGo net url a r).1 = Except.error e ∧
      countHttp (fetchWithRetryGo net url a r).2 = r ∧
      countWait (fetchWithRetryGo net url a r).2 = r - 1 := by
  intro r
  induction r with
  | zero => intro a e h1; omega
  | succ s ih =>
    intro a e h1 hall hlast
    by_cases hs : s = 0
    · subst hs
      have hnet : net (a + 1) = Except.error e := hlast
      simp [fetchWithRetryGo, hnet, countHttp, countWait]
    · obtain ⟨e2, hnet⟩ := hall (a + 1) (by omega) (by omega)
      have harith : a + 1 + s = a + (s + 1) := by omega
      have ihres := ih (a + 1) e (by omega)
        (fun i hi1 hi2 => hall i (by omega) (by omega))
        (by rw [harith]; exact hlast)
      refine ⟨?_, ?_, ?_⟩
      · simp only [fetchWithRetryGo, hnet]
        rw [if_neg hs]
        exact ihres.1
      · simp only [fetchWithRetryGo, hnet]
        rw [if_neg hs]
        simp only [countHttp]
        rw [ihres.2.1]
      · simp only [fetchWithRetryGo, hnet]
        rw [if_neg hs]
        simp only [countWait, countHttp]
        rw [ihres.2.2]
        omega

/-- C3: `fetchWithRetry` makes at most `maxRetries` attempts (the default
is `DEFAULT_MAX_RETRIES = 3`); every recorded delay is exactly
`RETRY_DELAY_MS = 2000` ms (fixed, no jitter, no backoff); and when every
attempt fails, the error of the last attempt is thrown after exactly
`maxRetries` attempts separated by `maxRetries - 1` delays. -/
theorem fetchWithRetry_policy (p : BirdeyeProvider)
    (net : Nat → Except String JsVal) (url : String) :
    RETRY_DELAY_MS = 2000 ∧
    DEFAULT_MAX_RETRIES = 3 ∧
    (mkBirdeyeProvider none).maxRetries = 3 ∧
    countHttp (fetchWithRetry p net url).2 ≤ p.maxRetries ∧
    (∀ ms, Effect.wait ms ∈ (fetchWithRetry p net url).2 →
      ms = RETRY_DELAY_MS) ∧
    (∀ e, 1 ≤ p.maxRetries →
      (∀ i, 0 < i → i < p.maxRetries → ∃ e2, net i = Except.error e2) →
      net p.maxRetries = Except.error e →
      (fetchWithRetry p net url).1 = Except.error e ∧
      countHttp (fetchWithRetry p net url).2 = p.maxRetries ∧
      countWait (fetchWithRetry p net url).2 = p.maxRetries - 1) := by
  refine ⟨rfl, rfl, rfl, countHttp_fetchWithRetryGo_le net url p.maxRetries 0,
    fun ms h => wait_fetchWithRetryGo_eq net url p.maxRetries 0 ms h,
    fun e h1 hall hlast => fetchWithRetryGo_all_fail net url p.maxRetries 0 e h1
      (fun i hi1 hi2 => hall i hi1 (by omega)) (by simpa using hlast)⟩

/-- Witness for C3: with the default provider and a network failing every
attempt, the last error is thrown after 3 attempts and 2 delays, and a
recorded delay equals `RETRY_DELAY_MS`. -/
theorem fetchWithRetry_policy_witness :
    ((fetchWithRetry (mkBirdeyeProvider none) failNet "u").1 =
        Except.error "err3" ∧
      countHttp (fetchWithRetry (mkBirdeyeProvider none) failNet "u").2 = 3 ∧
      countWait (fetchWithRetry (mkBirdeyeProvider none) failNet "u").2 =
        3 - 1) ∧
    (2000 : Nat) = RETRY_DELAY_MS :=
  ⟨(fetchWithRetry_policy (mkBirdeyeProvider none) failNet "u").2.2.2.2.2
      "err3" (by decide)
      (fun i h1 h2 => ⟨"err" ++ toString i, rfl⟩) (by rfl),
   (fetchWithRetry_policy (mkBirdeyeProvider none) failNet "u").2.2.2.2.1
      2000 (by decide)⟩

/-- C1 (amended): each Birdeye fetch operation builds its endpoint URL
and delegates directly to `fetchWithRetry`; the two-tier cache is neither
consulted nor updated — the result and the HTTP effects do not depend on
the cache contents, and the cache state is returned unchanged. -/
theorem birdeye_fetch_bypasses_cache (p : BirdeyeProvider)
    (st : CacheState) (net : Nat → Except String JsVal) (address : String) :
    fetchPriceByAddress p st net address =
      ((fetchWithRetry p net
          (API_BASE_URL ++ "/defi/price?address=" ++ address)).1, st,
        (fetchWithRetry p net
          (API_BASE_URL ++ "/defi/price?address=" ++ address)).2) ∧
    fetchTokenSecurityByAddress p st net address =
      ((fetchWithRetry p net
          (API_BASE_URL ++ "/defi/token_security?address=" ++ address)).1, st,
        (fetchWithRetry p net
          (API_BASE_URL ++ "/defi/token_security?address=" ++ address)).2) ∧
    fetchTokenTradeDataByAddress p st net address =
      ((fetchWithRetry p net
          (API_BASE_URL ++ "/defi/v3/token/trade-data/single?address=" ++
            address)).1, st,
        (fetchWithRetry p net
          (API_BASE_URL ++ "/defi/v3/token/trade-data/single?address=" ++
            address)).2) ∧
    fetchWalletPortfolio p st net address =
      ((fetchWithRetry p net
          (API_BASE_URL ++ "/v1/wallet/token_list?wallet=" ++ address)).1, st,
        (fetchWithRetry p net
          (API_BASE_URL ++ "/v1/wallet/token_list?wallet=" ++ address)).2) :=
  ⟨rfl, rfl, rfl, rfl⟩

/-- C1 is false on the code: with both cache tiers already holding fresh
data for the requested address and the network answering 7,
`fetchPriceByAddress` still issues an HTTP request, returns the network
value rather than the cached 42, and leaves the cache unchanged; from the
empty cache the fetched result is likewise never written back. -/
theorem birdeye_fetch_cache_counterexample :
    (fetchPriceByAddress (mkBirdeyeProvider none) c1St
        (fun _ => Except.ok (JsVal.vnum 7)) "0xabc").1 =
      Except.ok (some (JsVal.vnum 7)) ∧
    (fetchPriceByAddress (mkBirdeyeProvider none) c1St
        (fun _ => Except.ok (JsVal.vnum 7)) "0xabc").2.1 = c1St ∧
    (fetchPriceByAddress (mkBirdeyeProvider none) c1St
        (fun _ => Except.ok (JsVal.vnum 7)) "0xabc").2.2 =
      [Effect.httpGet "https://public-api.birdeye.so/defi/price?address=0xabc"] ∧
    (fetchPriceByAddress (mkBirdeyeProvider none) emptyCacheState
        (fun _ => Except.ok (JsVal.vnum 7)) "0xabc").2.1 = emptyCacheState :=
  ⟨rfl, rfl, rfl, rfl⟩

/-- C5: `createGoatPlugin` validates settings before building anything:
when any of the three required settings is falsy it produces the error
naming every missing setting with its description, without touching the
rest of the initialization (`rest` stands for the wallet adapter, the
Twitter notifier and the plugin assembly, and is used only after
validation passes); when all three are present it passes validation. -/
theorem createGoatPlugin_validates_first {α : Type}
    (getSetting : String → Option String) (rest : α) :
    (missingSettings getSetting ≠ [] →
      createGoatPlugin getSetting rest =
        Except.error ("Missing required settings: " ++
          String.intercalate ", " (missingSettings getSetting))) ∧
    (∀ k d, (k, d) ∈ REQUIRED_SETTINGS → jsFalsyStrOpt (getSetting k) = true →
      (k ++ " (" ++ d ++ ")") ∈ missingSettings getSetting) ∧
    ((jsFalsyStrOpt (getSetting "WALLET_PUBLIC_KEY") = true ∨
      jsFalsyStrOpt (getSetting "DEXSCREENER_WATCHLIST_ID") = true ∨
      jsFalsyStrOpt (getSetting "COINGECKO_API_KEY") = true) →
      missingSettings getSetting ≠ []) ∧
    ((jsFalsyStrOpt (getSetting "WALLET_PUBLIC_KEY") = false ∧
      jsFalsyStrOpt (getSetting "DEXSCREENER_WATCHLIST_ID") = false ∧
      jsFalsyStrOpt (getSetting "COINGECKO_API_KEY") = false) →
      missingSettings getSetting = [] ∧
      createGoatPlugin getSetting rest = Except.ok rest) := by
  refine ⟨?_, ?_, ?_, ?_⟩
  · intro h
    unfold createGoatPlugin
    rw [if_pos]
    exact List.length_pos.mpr h
  · intro k d hk hf
    exact List.mem_map.mpr
      ⟨(k, d), List.mem_filter.mpr ⟨hk, hf⟩, rfl⟩
  · intro h hnil
    rcases h with h | h | h
    · have hmem : ("WALLET_PUBLIC_KEY (Solana wallet public key)")
          ∈ missingSettings getSetting :=
        List.mem_map.mpr
          ⟨("WALLET_PUBLIC_KEY", "Solana wallet public key"),
            List.mem_filter.mpr ⟨by simp [REQUIRED_SETTINGS], h⟩, rfl⟩
      rw [hnil] at hmem
      simp at hmem
    · have hmem : ("DEXSCREENER_WATCHLIST_ID (DexScreener watchlist ID)")
          ∈ missingSettings getSetting :=
        List.mem_map.mpr
          ⟨("DEXSCREENER_WATCHLIST_ID", "DexScreener watchlist ID"),
            List.mem_filter.mpr ⟨by simp [REQUIRED_SETTINGS], h⟩, rfl⟩
      rw [hnil] at hmem
      simp at hmem
    · have hmem : ("COINGECKO_API_KEY (CoinGecko API key)")
          ∈ missingSettings getSetting :=
        List.mem_map.mpr
          ⟨("COINGECKO_API_KEY", "CoinGecko API key"),
            List.mem_filter.mpr ⟨by simp [REQUIRED_SETTINGS], h⟩, rfl⟩
      rw [hnil] at hmem
      simp at hmem
  · rintro ⟨h1, h2, h3⟩
    have hempty : missingSettings getSetting = [] := by
      simp [missingSettings, REQUIRED_SETTINGS, List.filter, h1, h2, h3]
    exact ⟨hempty, by simp [createGoatPlugin, hempty]⟩

/-- Witness for C5: with no settings present, validation fails with the
message naming all three settings; with all present, it passes. -/
theorem createGoatPlugin_validates_first_witness :
    createGoatPlugin goatGetNone (0 : Nat) =
      Except.error ("Missing required settings: " ++
        String.intercalate ", " (missingSettings goatGetNone)) ∧
    ("WALLET_PUBLIC_KEY (Solana wallet public key)")
      ∈ missingSettings goatGetNone ∧
    missingSettings goatGetNone ≠ [] ∧
    missingSettings goatGetAll = [] ∧
    createGoatPlugin goatGetAll (0 : Nat) = Except.ok 0 :=
  ⟨(createGoatPlugin_validates_first goatGetNone 0).1 (by decide),
   (createGoatPlugin_validates_first goatGetNone 0).2.1
      "WALLET_PUBLIC_KEY" "Solana wallet public key" (by decide) (by decide),
   (createGoatPlugin_validates_first goatGetNone 0).2.2.1
      (Or.inl (by decide)),
   ((createGoatPlugin_validates_first goatGetAll 0).2.2.2
      ⟨by decide, by decide, by decide⟩).1,
   ((createGoatPlugin_validates_first goatGetAll 0).2.2.2
      ⟨by decide, by decide, by decide⟩).2⟩

/-- C6 is false on the code: in a successful non-native run the handler
calls getQuote at trace index 1, before approve at index 2, so the
claimed order (approve first, then quote) does not hold. -/
theorem swapHandler_order_counterexample :
    (swapHandler c6Content c6Env).2 =
      [SwapStep.generateObjectCall, SwapStep.getQuoteCall "0xFROM" "0xTO",
       SwapStep.approveCall "0xFROM" YAK_ROUTER,
       SwapStep.getTxReceiptCall "0xtx1", SwapStep.swapCall,
       SwapStep.getTxReceiptCall "0xtx2"] ∧
    firstIdxWhere isQuoteStep (swapHandler c6Content c6Env).2 = 1 ∧
    firstIdxWhere isApproveStep (swapHandler c6Content c6Env).2 = 2 ∧
    ¬ firstIdxWhere isApproveStep (swapHandler c6Content c6Env).2 <
        firstIdxWhere isQuoteStep (swapHandler c6Content c6Env).2 := by
  refine ⟨by decide, by decide, by decide, by decide⟩

/-- C6 (amended): the SWAP_TOKEN handler parses the request via
generateObject first; for valid non-native content it then calls
getQuote, then approve, then getTxReceipt on the approval transaction;
only when that receipt reports "success" does it call swap, followed by
getTxReceipt on the swap transaction; when the approval receipt is not
"success", swap is never called. -/
theorem swapHandler_sequence (c : SwapContent) (env : SwapEnv)
    (tx stx : String)
    (hvalid : isSwapContent c = true)
    (hfrom : asString c.fromTokenAddress ≠ ZERO_ADDRESS)
    (hto : asString c.toTokenAddress ≠ ZERO_ADDRESS)
    (happ : env.approveTx = some tx) :
    (env.receiptStatus tx = "success" → env.swapTx = some stx →
      (swapHandler c env).2 =
        [SwapStep.generateObjectCall,
         SwapStep.getQuoteCall (asString c.fromTokenAddress)
           (asString c.toTokenAddress),
         SwapStep.approveCall (asString c.fromTokenAddress) YAK_ROUTER,
         SwapStep.getTxReceiptCall tx, SwapStep.swapCall,
         SwapStep.getTxReceiptCall stx]) ∧
    (env.receiptStatus tx ≠ "success" →
      (swapHandler c env).2 =
        [SwapStep.generateObjectCall,
         SwapStep.getQuoteCall (asString c.fromTokenAddress)
           (asString c.toTokenAddress),
         SwapStep.approveCall (asString c.fromTokenAddress) YAK_ROUTER,
         SwapStep.getTxReceiptCall tx] ∧
      SwapStep.swapCall ∉ (swapHandler c env).2) := by
  constructor
  · intro hrc hsw
    simp [swapHandler, hvalid, hfrom, hto, happ, hrc, hsw]
  · intro hrc
    have htrace : (swapHandler c env).2 =
        [SwapStep.generateObjectCall,
         SwapStep.getQuoteCall (asString c.fromTokenAddress)
           (asString c.toTokenAddress),
         SwapStep.approveCall (asString c.fromTokenAddress) YAK_ROUTER,
         SwapStep.getTxReceiptCall tx] := by
      simp [swapHandler, hvalid, hfrom, hto, happ, hrc]
    refine ⟨htrace, ?_⟩
    rw [htrace]
    simp

/-- Witness for C6: the amended sequence at a concrete successful run and
at a concrete run whose approval receipt fails. -/
theorem swapHandler_sequence_witness :
    (swapHandler c6Content c6Env).2 =
      [SwapStep.generateObjectCall, SwapStep.getQuoteCall "0xFROM" "0xTO",
       SwapStep.approveCall "0xFROM" YAK_ROUTER,
       SwapStep.getTxReceiptCall "0xtx1", SwapStep.swapCall,
       SwapStep.getTxReceiptCall "0xtx2"] ∧
    (swapHandler c6Content c6EnvFail).2 =
      [SwapStep.generateObjectCall, SwapStep.getQuoteCall "0xFROM" "0xTO",
       SwapStep.approveCall "0xFROM" YAK_ROUTER,
       SwapStep.getTxReceiptCall "0xtx1"] ∧
    SwapStep.swapCall ∉ (swapHandler c6Content c6EnvFail).2 :=
  ⟨(swapHandler_sequence c6Content c6Env "0xtx1" "0xtx2"
      (by decide) (by decide) (by decide) rfl).1 rfl rfl,
   ((swapHandler_sequence c6Content c6EnvFail "0xtx1" "0xtx2"
      (by decide) (by decide) (by decide) rfl).2 (by decide)).1,
   ((swapHandler_sequence c6Content c6EnvFail "0xtx1" "0xtx2"
      (by decide) (by decide) (by decide) rfl).2 (by decide)).2⟩

/-- C10: `birdeyeProvider.get` never rejects — it returns a string in
every case: the no-wallet message when the BIRDEYE_WALLET_ADDR setting is
falsy, the portfolio summary when the fetch succeeds, and the fixed
fallback string when the underlying fetch throws. -/
theorem birdeyeProviderGet_total (walletAddr : Option String)
    (net : Nat → Except String JsVal) :
    (jsFalsyStrOpt walletAddr = true →
      birdeyeProviderGet walletAddr net =
        "Birdeye provider initiated with no wallet found") ∧
    (∀ addr, walletAddr = some addr → jsFalsyStrOpt walletAddr = false →
      (∀ v, (fetchWalletPortfolio (mkBirdeyeProvider none) emptyCacheState
            net addr).1 = Except.ok v →
        birdeyeProviderGet walletAddr net =
          "Birdeye wallet addr: " ++ addr ++ ", portfolio: " ++
            jsToStringOpt v) ∧
      (∀ e, (fetchWalletPortfolio (mkBirdeyeProvider none) emptyCacheState
            net addr).1 = Except.error e →
        birdeyeProviderGet walletAddr net =
          "Unable to fetch token information. Please try again later.")) := by
  constructor
  · intro h
    simp [birdeyeProviderGet, h]
  · rintro addr rfl hfalse
    constructor
    · intro v hv
      unfold birdeyeProviderGet
      rw [if_neg (by simp [hfalse])]
      dsimp only [Option.getD]
      rw [hv]
    · intro e hv
      unfold birdeyeProviderGet
      rw [if_neg (by simp [hfalse])]
      dsimp only [Option.getD]
      rw [hv]

/-- Witness for C10: the three return strings, at concrete inputs. -/
theorem birdeyeProviderGet_total_witness :
    birdeyeProviderGet none failNet =
      "Birdeye provider initiated with no wallet found" ∧
    birdeyeProviderGet (some "W") (fun _ => Except.ok (JsVal.vnum 7)) =
      "Birdeye wallet addr: W, portfolio: 7" ∧
    birdeyeProviderGet (some "W") failNet =
      "Unable to fetch token information. Please try again later." :=
  ⟨(birdeyeProviderGet_total none failNet).1 (by decide),
   ((birdeyeProviderGet_total (some "W")
      (fun _ => Except.ok (JsVal.vnum 7))).2 "W" rfl (by decide)).1
      (some (JsVal.vnum 7)) (by rfl),
   ((birdeyeProviderGet_total (some "W") failNet).2 "W" rfl (by decide)).2
      "err3" (by rfl)⟩
